import Mathlib

/-!
Verification development for the incremental render scheduler and content
caches of a static-site generator.

The definitions below are shallow embeddings of the JavaScript sources:
* `TemplateContent` (read / compile caches, relevance test),
* `TemplateWriter._addToTemplateMapIncrementalBuild` (incremental
  classification, second-order propagation, cache reset policy),
* `TemplateWriter.generateTemplates` (render scheduling and the
  premature-content retry array, with the JavaScript microtask timing made
  explicit),
* the `TemplateMap` ordering algorithm (modelled from the design document,
  since its implementation is not part of the provided sources).

JavaScript absent/`undefined`/`null` values are modelled with `Option`;
JavaScript string falsiness is modelled as equality with `""`.
-/

set_option autoImplicit false

namespace Eleventy

/-- Renderable override tri-state of a template:
`undefined` (unset, render), `"optional"`, `false` (disabled/skip). -/
inductive RenderableOverride where
  | unset
  | optional
  | disabled
deriving DecidableEq, Repr

/-- Context object passed to a custom `isIncrementalMatch` callback
(see `TemplateContent.isFileRelevantToThisTemplate`). -/
structure MatchContext where
  inputPath : String
  isFullTemplate : Bool
  isFileRelevantToInputPath : Bool
  doesFileHaveDependencies : Bool

/-- One entry of `engine.extensionEntries`. `hasIncrementalMatch` models the
truthiness of `entry.isIncrementalMatch`; `matchesFile` models calling it with
the bound context and the changed file. -/
structure ExtensionEntry where
  hasIncrementalMatch : Bool
  matchesFile : MatchContext → String → Bool

/-- The engine collaborator surface used by the relevance test. -/
structure EngineView where
  hasDependencies : String → Bool
  isFileRelevantTo : String → String → Bool
  extensionEntries : List ExtensionEntry

/-- A template as seen by `TemplateContent.isFileRelevantToThisTemplate`. -/
structure TemplateModel where
  inputPath : String
  engine : EngineView

/-- Shallow embedding of `TemplateContent.isFileRelevantToThisTemplate`.
`incrementalFile = none` models `undefined`/`null`; `some ""` models the
empty (falsy) string. `isFullTemplate` is `metadata.isFullTemplate`. -/
def isFileRelevantToThisTemplate (t : TemplateModel) (incrementalFile : Option String)
    (isFullTemplate : Bool) : Bool :=
  match incrementalFile with
  | none => true
  | some f =>
    if f = "" then
      -- always relevant if incremental file not set (build everything)
      true
    else
      let hasDeps := t.engine.hasDependencies f
      let isRelevant := t.engine.isFileRelevantTo t.inputPath f
      let entries := t.engine.extensionEntries.filter (·.hasIncrementalMatch)
      if !entries.isEmpty then
        entries.any fun e =>
          e.matchesFile ⟨t.inputPath, isFullTemplate, isRelevant, hasDeps⟩ f
      else if isRelevant then
        true
      else if !hasDeps && !isFullTemplate then
        true
      else
        false

/-- Shallow embedding of the per-template renderable-override assignment in
`TemplateWriter._addToTemplateMapIncrementalBuild` (classification loop).
`shapeIsTemplate` is `incrementalFileShape === "template"`;
`usesIsFileUsedBy` is `this.config.uses.isFileUsedBy`. -/
def assignRenderableOverride (ignoreInitialBuild shapeIsTemplate : Bool)
    (incrementalFile : String) (usesIsFileUsedBy : String → String → Bool)
    (t : TemplateModel) : RenderableOverride :=
  if ignoreInitialBuild then
    .disabled
  else if shapeIsTemplate ∧ t.inputPath = incrementalFile then
    .unset
  else if isFileRelevantToThisTemplate t (some incrementalFile) shapeIsTemplate then
    -- changed file is used by template
    .unset
  else if usesIsFileUsedBy incrementalFile t.inputPath then
    -- changed file uses this template
    .optional
  else
    .disabled

/-- A template becomes first-order relevant when the relevance branch of the
classification loop fires (its input path is recorded in
`secondOrderRelevantLookup`). -/
def isFirstOrderRelevant (shapeIsTemplate : Bool) (incrementalFile : String)
    (t : TemplateModel) : Bool :=
  !(shapeIsTemplate && t.inputPath == incrementalFile) &&
    isFileRelevantToThisTemplate t (some incrementalFile) shapeIsTemplate

/-- Restatement of the specification's case analysis for the incremental
scheduler (spec §4.4), used to compare against the code's assignment. -/
def specRenderableCaseAnalysis (shapeIsTemplate : Bool) (incrementalFile : String)
    (usesIsFileUsedBy : String → String → Bool) (t : TemplateModel) : RenderableOverride :=
  if shapeIsTemplate ∧ t.inputPath = incrementalFile then
    .unset
  else if isFileRelevantToThisTemplate t (some incrementalFile) shapeIsTemplate then
    .unset
  else if usesIsFileUsedBy incrementalFile t.inputPath then
    .optional
  else
    .disabled

/-- Shallow embedding of the second-order propagation loop of
`TemplateWriter._addToTemplateMapIncrementalBuild`: every template whose
input path is in the second-order relevant set and whose renderable state is
disabled is upgraded to optional. -/
def applySecondOrderUpgrade (secondOrder : String → Bool)
    (ts : List (TemplateModel × RenderableOverride)) :
    List (TemplateModel × RenderableOverride) :=
  ts.map fun p =>
    if secondOrder p.1.inputPath then
      if p.2 = RenderableOverride.disabled then (p.1, RenderableOverride.optional) else p
    else p

end Eleventy

namespace Eleventy

/-- Example engine with no dependency tracking and no extension entries. -/
def exEngine : EngineView where
  hasDependencies := fun _ => false
  isFileRelevantTo := fun p f => p == f
  extensionEntries := []

/-- Example template used by concrete witnesses. -/
def exTemplate : TemplateModel where
  inputPath := "./content/index.md"
  engine := exEngine

end Eleventy

namespace Eleventy

/-- C9: for every template and any metadata argument, the relevance test
returns true whenever the changed-file argument is absent (`undefined`/`null`,
modelled by `none`) or empty (falsy), i.e. a full build renders everything. -/
theorem relevance_true_without_incremental_file (t : TemplateModel) (isFullTemplate : Bool) :
    isFileRelevantToThisTemplate t none isFullTemplate = true ∧
      isFileRelevantToThisTemplate t (some "") isFullTemplate = true := by
  constructor
  · rfl
  · simp [isFileRelevantToThisTemplate]

/-- C5: for every template and non-empty changed path, the relevance test
equals: when `isIncrementalMatch` extension entries are present, whether some
entry matches; otherwise, true exactly when the template depends directly on
the changed path or when the engine reports no known dependencies and the
changed path is not a full-template file (conservative fallback). -/
theorem relevance_characterization (t : TemplateModel) (f : String) (isFullTemplate : Bool)
    (hf : f ≠ "") :
    isFileRelevantToThisTemplate t (some f) isFullTemplate =
      (let hasDeps := t.engine.hasDependencies f
       let isRelevant := t.engine.isFileRelevantTo t.inputPath f
       let entries := t.engine.extensionEntries.filter (·.hasIncrementalMatch)
       if !entries.isEmpty then
         entries.any fun e => e.matchesFile ⟨t.inputPath, isFullTemplate, isRelevant, hasDeps⟩ f
       else
         isRelevant || (!hasDeps && !isFullTemplate)) := by
  simp only [isFileRelevantToThisTemplate, if_neg hf]
  cases he : (t.engine.extensionEntries.filter (·.hasIncrementalMatch)).isEmpty
  · simp [he]
  · cases hrel : t.engine.isFileRelevantTo t.inputPath f <;> simp [he, hrel]

/-- Witness for `relevance_characterization` at a concrete template and
changed path. -/
theorem relevance_characterization_witness :
    isFileRelevantToThisTemplate exTemplate (some "./style.css") false =
      (let hasDeps := exTemplate.engine.hasDependencies "./style.css"
       let isRelevant := exTemplate.engine.isFileRelevantTo exTemplate.inputPath "./style.css"
       let entries := exTemplate.engine.extensionEntries.filter (·.hasIncrementalMatch)
       if !entries.isEmpty then
         entries.any fun e => e.matchesFile ⟨exTemplate.inputPath, false, isRelevant, hasDeps⟩ "./style.css"
       else
         isRelevant || (!hasDeps && !false)) :=
  relevance_characterization exTemplate "./style.css" false (by decide)

/-- C1: in an incremental build with an incremental file set and the initial
build not ignored, the scheduler assigns each template exactly one renderable
state by the claimed case analysis: changed file itself (full-template
change) → unset; relevant to the changed file → unset; changed file uses this
template (inverse relation) → optional; otherwise → disabled. -/
theorem incremental_classification_cases (shapeIsTemplate : Bool) (incrementalFile : String)
    (usesIsFileUsedBy : String → String → Bool) (t : TemplateModel) :
    assignRenderableOverride false shapeIsTemplate incrementalFile usesIsFileUsedBy t =
      specRenderableCaseAnalysis shapeIsTemplate incrementalFile usesIsFileUsedBy t := by
  simp [assignRenderableOverride, specRenderableCaseAnalysis]

/-- C2: after the second-order propagation loop, every template in the
second-order relevant set whose renderable state was disabled (skip) has been
upgraded to optional; no such template is left at skip. -/
theorem second_order_upgrade (secondOrder : String → Bool)
    (ts : List (TemplateModel × RenderableOverride)) (i : Nat) (t : TemplateModel)
    (st : RenderableOverride) (hi : ts[i]? = some (t, st))
    (hso : secondOrder t.inputPath = true) (hst : st = RenderableOverride.disabled) :
    (applySecondOrderUpgrade secondOrder ts)[i]? = some (t, RenderableOverride.optional) := by
  simp only [applySecondOrderUpgrade, List.getElem?_map, hi, Option.map_some']
  simp [hso, hst]

/-- Witness for `second_order_upgrade` at a concrete one-template list. -/
theorem second_order_upgrade_witness :
    (applySecondOrderUpgrade (fun _ => true)
        [(exTemplate, RenderableOverride.disabled)])[0]? =
      some (exTemplate, RenderableOverride.optional) :=
  second_order_upgrade (fun _ => true) [(exTemplate, RenderableOverride.disabled)] 0
    exTemplate RenderableOverride.disabled rfl rfl rfl

end Eleventy

namespace Eleventy

/-- Normalized cache reset kinds, the result of
`TemplateContent.getResetTypes`. -/
structure ResetTypes where
  data : Bool
  read : Bool
  render : Bool
deriving DecidableEq, Repr

/-- A partial `types` argument to `resetCaches`; `none` fields model keys
absent from the JavaScript object literal. -/
structure PartialResetTypes where
  data : Option Bool := none
  read : Option Bool := none
  render : Option Bool := none

/-- Shallow embedding of `TemplateContent.getResetTypes`: a provided object
is merged over all-false defaults; no argument means reset everything. -/
def getResetTypes (types : Option PartialResetTypes) : ResetTypes :=
  match types with
  | some t => ⟨t.data.getD false, t.read.getD false, t.render.getD false⟩
  | none => ⟨true, true, true⟩

/-- Observable effect of one iteration of the final cache-reset loop of
`TemplateWriter._addToTemplateMapIncrementalBuild` on one template:
which reset kinds are passed to `resetCaches` (all-false when the loop makes
no `resetCaches` call), the `setDryRunViaIncremental` argument, and the
increment applied to `skippedCount`. -/
structure IncrementalPassEffect where
  resets : ResetTypes
  dryRunViaIncremental : Bool
  skippedIncrement : Nat
deriving DecidableEq, Repr

/-- Shallow embedding of the final cache-reset loop body of
`TemplateWriter._addToTemplateMapIncrementalBuild`. `st` is the template's
renderable override after classification and second-order propagation. -/
def finalCacheResetStep (shapeIsTemplate : Bool) (incrementalFile inputPath : String)
    (st : RenderableOverride) : IncrementalPassEffect :=
  if shapeIsTemplate ∧ inputPath = incrementalFile then
    -- Cache is reset above (to invalidate data cache at the right time)
    { resets := ⟨false, false, false⟩, dryRunViaIncremental := false, skippedIncrement := 0 }
  else if st ≠ RenderableOverride.disabled ∧ st ≠ RenderableOverride.optional then
    { resets := getResetTypes (some { data := some true, render := some true }),
      dryRunViaIncremental := false, skippedIncrement := 0 }
  else
    { resets := getResetTypes (some { data := some true }),
      dryRunViaIncremental := true, skippedIncrement := 1 }

end Eleventy

namespace Eleventy

/-- C4 counterexample: a template (not the changed file) whose final state is
optional — not skip — still increments the skipped-count metric, so the
metric is not incremented exactly for the templates in the skip state. -/
theorem skipped_count_at_optional_counterexample :
    (finalCacheResetStep true "./a.md" "./b.md" RenderableOverride.optional).skippedIncrement = 1
      ∧ RenderableOverride.optional ≠ RenderableOverride.disabled := by
  decide

/-- C4 amended: for each template other than the changed file itself, the
cache reset depends only on its final state: render state → data and render
caches reset, read cache untouched, no skipped-count increment; optional or
skip state → only the data cache reset, and the skipped-count metric is
incremented (for optional as well as for skip). -/
theorem cache_reset_policy (shapeIsTemplate : Bool) (incrementalFile inputPath : String)
    (st : RenderableOverride) (h : ¬(shapeIsTemplate = true ∧ inputPath = incrementalFile)) :
    finalCacheResetStep shapeIsTemplate incrementalFile inputPath st =
      if st ≠ RenderableOverride.disabled ∧ st ≠ RenderableOverride.optional then
        { resets := ⟨true, false, true⟩, dryRunViaIncremental := false, skippedIncrement := 0 }
      else
        { resets := ⟨true, false, false⟩, dryRunViaIncremental := true, skippedIncrement := 1 } := by
  unfold finalCacheResetStep
  rw [if_neg (by simpa using h)]
  cases st <;> rfl

/-- Witness for `cache_reset_policy` at a concrete optional template. -/
theorem cache_reset_policy_witness :
    finalCacheResetStep false "./a.md" "./b.md" RenderableOverride.optional =
      if RenderableOverride.optional ≠ RenderableOverride.disabled ∧
          RenderableOverride.optional ≠ RenderableOverride.optional then
        { resets := ⟨true, false, true⟩, dryRunViaIncremental := false, skippedIncrement := 0 }
      else
        { resets := ⟨true, false, false⟩, dryRunViaIncremental := true, skippedIncrement := 1 } :=
  cache_reset_policy false "./a.md" "./b.md" RenderableOverride.optional (by decide)

end Eleventy

namespace Eleventy

/-- Parsed front matter: `{ data, content, excerpt }` as produced by the
`gray-matter` collaborator; `data` is modelled as a string-keyed object. -/
structure FrontMatter where
  data : List (String × String)
  content : String
  excerpt : String
deriving DecidableEq, Repr

/-- Front-matter parsing options (`config.frontMatterParsingOptions`). -/
structure FrontMatterOptions where
  excerpt : Bool := false
  excerptSeparator : Option String := none
  excerptAlias : Option String := none

/-- Set a key in a string-keyed object, replacing an existing binding in
place or appending a new one (models `lodash.set` for a flat alias path and
`Map.prototype.set` insertion-order semantics). -/
def assocSet {α : Type} : List (String × α) → String → α → List (String × α)
  | [], k, v => [(k, v)]
  | (k', v') :: rest, k, v =>
    if k' = k then (k, v) :: rest else (k', v') :: assocSet rest k v

/-- Lookup a key in a string-keyed object (models `Map.prototype.get`). -/
def assocLookup {α : Type} : List (String × α) → String → Option α
  | [], _ => none
  | (k', v) :: rest, k => if k' = k then some v else assocLookup rest k

/-- Remove a key from a string-keyed object (models `Map.prototype.delete`). -/
def assocDelete {α : Type} (m : List (String × α)) (k : String) : List (String × α) :=
  m.filter (fun p => !(p.1 == k))

/-- Shallow embedding of the excerpt post-processing inside
`TemplateContent.read` (the `options.excerpt && fm.excerpt` block): the
excerpt separator is stripped from the content in one of three `startsWith`
cases and the excerpt is aliased into the data object. `eol` is `os.EOL`. -/
def processExcerpt (options : FrontMatterOptions) (eol : String) (fm : FrontMatter) :
    FrontMatter :=
  if options.excerpt ∧ fm.excerpt ≠ "" then
    let excerptString := fm.excerpt ++ options.excerptSeparator.getD "---"
    let content :=
      if fm.content.startsWith (excerptString ++ eol) then
        -- with an os-specific newline after excerpt separator
        fm.excerpt.trim ++ "\n" ++ fm.content.drop (excerptString ++ eol).length
      else if fm.content.startsWith (excerptString ++ "\n") then
        -- with a newline after excerpt separator
        fm.excerpt.trim ++ "\n" ++ fm.content.drop (excerptString.length + 1)
      else if fm.content.startsWith excerptString then
        -- no newline after excerpt separator
        fm.excerpt ++ fm.content.drop excerptString.length
      else
        fm.content
    { data := assocSet fm.data (options.excerptAlias.getD "page.excerpt") fm.excerpt,
      content := content, excerpt := fm.excerpt }
  else
    fm

/-- Errors surfaced by `TemplateContent.read`. -/
inductive ReadError where
  | frontMatter (inputPath : String) (cause : String)
deriving DecidableEq, Repr

/-- Shallow embedding of `TemplateContent.read`: string content (including
the empty string) is passed to the front-matter parser, whose failure is
wrapped in a front-matter error naming the input path; non-string content
(`undefined`/`null`, modelled by `none`) resolves to an empty result without
consulting the parser. -/
def readTemplate (inputPath : String) (options : FrontMatterOptions) (eol : String)
    (matterParse : String → Except String FrontMatter) (inputContent : Option String) :
    Except ReadError FrontMatter :=
  match inputContent with
  | some content =>
    match matterParse content with
    | .ok fm => .ok (processExcerpt options eol fm)
    | .error e => .error (.frontMatter inputPath e)
  | none => .ok { data := [], content := "", excerpt := "" }

/-- C10: when the input content is neither a non-empty string nor the empty
string (`undefined`/`null`), `read()` resolves to
`{ data: {}, content: "", excerpt: "" }` without invoking the front-matter
parser: the result is the same for every possible parser, including an
always-failing one, so no front-matter error can be raised. -/
theorem read_without_string_content (inputPath : String) (options : FrontMatterOptions)
    (eol : String) (matterParse : String → Except String FrontMatter) :
    readTemplate inputPath options eol matterParse none =
      Except.ok { data := [], content := "", excerpt := "" } :=
  rfl

end Eleventy

namespace Eleventy

/-- Lookup after setting the same key returns the new value. -/
theorem assocLookup_set_self {α : Type} (m : List (String × α)) (k : String) (v : α) :
    assocLookup (assocSet m k v) k = some v := by
  induction m with
  | nil => simp [assocSet, assocLookup]
  | cons p rest ih =>
    obtain ⟨k0, v0⟩ := p
    by_cases hk : k0 = k
    · simp [assocSet, assocLookup, hk]
    · simpa [assocSet, assocLookup, hk] using ih

/-- Lookup at a different key is unaffected by a set. -/
theorem assocLookup_set_other {α : Type} (m : List (String × α)) (k k' : String) (v : α)
    (h : k' ≠ k) : assocLookup (assocSet m k v) k' = assocLookup m k' := by
  induction m with
  | nil => simp [assocSet, assocLookup, Ne.symm h]
  | cons p rest ih =>
    obtain ⟨k0, v0⟩ := p
    by_cases hk : k0 = k
    · subst hk
      simp [assocSet, assocLookup, Ne.symm h]
    · by_cases hk' : k0 = k'
      · simp [assocSet, assocLookup, hk, hk', h]
      · simpa [assocSet, assocLookup, hk, hk'] using ih

/-- Lookup after deleting the key returns nothing. -/
theorem assocLookup_delete_self {α : Type} (m : List (String × α)) (k : String) :
    assocLookup (assocDelete m k) k = none := by
  induction m with
  | nil => rfl
  | cons p rest ih =>
    obtain ⟨k0, v0⟩ := p
    by_cases hk : k0 = k
    · simpa [assocDelete, assocLookup, hk] using ih
    · simpa [assocDelete, assocLookup, hk] using ih

/-- Result of the cache consultation at the start of
`TemplateContent.compile`: either a cached (possibly still pending) entry is
returned, or compilation proceeds. Cache entries are promise identities. -/
inductive CompileStep where
  | hit (promise : Nat)
  | compile
deriving DecidableEq, Repr

/-- Shallow embedding of the cache consultation and eager placeholder store
at the start of `TemplateContent.compile`: when the compile is cache-eligible
(`useTemplateCache`, `cacheable`, truthy `key`) and `useCache` finds a cached
entry, that entry is returned; otherwise a pending placeholder promise
(`freshPromise`) is stored under the key before the asynchronous compile
runs. -/
def compilePhase1 (useTemplateCache cacheable useCache : Bool) (key : String)
    (freshPromise : Nat) (cache : List (String × Nat)) :
    CompileStep × List (String × Nat) :=
  if useTemplateCache ∧ cacheable ∧ key ≠ "" then
    match (if useCache then assocLookup cache key else none) with
    | some p => (.hit p, cache)
    | none => (.compile, assocSet cache key freshPromise)
  else
    (.compile, cache)

/-- Shallow embedding of the `catch` branch of `TemplateContent.compile`:
on compile failure the cache entry for the key is deleted (failure is not
cached). -/
def compileOnFailure (cacheable : Bool) (key : String) (cache : List (String × Nat)) :
    List (String × Nat) :=
  if cacheable ∧ key ≠ "" then assocDelete cache key else cache

/-- C6: a cache-eligible, not-yet-cached compile stores a pending placeholder
under its key before the compile completes; a concurrent request for the same
key receives that same in-flight entry; on compile failure the placeholder is
deleted, so a subsequent compile for the same key attempts compilation
again. -/
theorem compile_eager_placeholder (key : String) (p q r : Nat)
    (cache : List (String × Nat)) (hkey : key ≠ "")
    (hmiss : assocLookup cache key = none) :
    (compilePhase1 true true true key p cache).1 = CompileStep.compile ∧
      assocLookup (compilePhase1 true true true key p cache).2 key = some p ∧
      (compilePhase1 true true true key q
          (compilePhase1 true true true key p cache).2).1 = CompileStep.hit p ∧
      assocLookup
          (compileOnFailure true key (compilePhase1 true true true key p cache).2) key =
        none ∧
      (compilePhase1 true true true key r
          (compileOnFailure true key (compilePhase1 true true true key p cache).2)).1 =
        CompileStep.compile := by
  have h1 : compilePhase1 true true true key p cache = (.compile, assocSet cache key p) := by
    simp [compilePhase1, hkey, hmiss]
  have hfail : compileOnFailure true key (assocSet cache key p) =
      assocDelete (assocSet cache key p) key := by
    simp [compileOnFailure, hkey]
  have h2 : (compilePhase1 true true true key p cache).2 = assocSet cache key p := by
    rw [h1]
  refine ⟨by rw [h1], ?_, ?_, ?_, ?_⟩
  · rw [h2, assocLookup_set_self]
  · rw [h2]
    simp [compilePhase1, hkey, assocLookup_set_self]
  · rw [h2, hfail, assocLookup_delete_self]
  · rw [h2, hfail]
    simp [compilePhase1, hkey, assocLookup_delete_self]

/-- Witness for `compile_eager_placeholder` on an empty cache. -/
theorem compile_eager_placeholder_witness :
    (compilePhase1 true true true "liquidKey" 1 []).1 = CompileStep.compile ∧
      assocLookup (compilePhase1 true true true "liquidKey" 1 []).2 "liquidKey" = some 1 ∧
      (compilePhase1 true true true "liquidKey" 2
          (compilePhase1 true true true "liquidKey" 1 []).2).1 = CompileStep.hit 1 ∧
      assocLookup
          (compileOnFailure true "liquidKey" (compilePhase1 true true true "liquidKey" 1 []).2)
          "liquidKey" = none ∧
      (compilePhase1 true true true "liquidKey" 3
          (compileOnFailure true "liquidKey"
            (compilePhase1 true true true "liquidKey" 1 []).2)).1 = CompileStep.compile :=
  compile_eager_placeholder "liquidKey" 1 2 3 [] (by decide) rfl

/-- Shallow embedding of the key computed by
`TemplateContent._getCompileCache`: the engine-provided compile cache key
prefixed by the owning configuration instance's unique id. -/
def combinedCompileCacheKey (uniqueId engineKey : String) : String :=
  uniqueId ++ engineKey

/-- C7: the compiled-template cache key combines the configuration instance's
unique id with the engine key: the same content under the same instance hits
the same cached entry, while identical content under two configuration
instances with distinct unique ids yields two distinct keys whose entries
never share a compiled function. -/
theorem compile_cache_key_isolation (uid1 uid2 ekey : String) (fn1 fn2 : Nat)
    (cache : List (String × Nat)) (h : uid1 ≠ uid2)
    (hk : combinedCompileCacheKey uid1 ekey ≠ "") :
    combinedCompileCacheKey uid1 ekey ≠ combinedCompileCacheKey uid2 ekey ∧
      assocLookup
          (assocSet (assocSet cache (combinedCompileCacheKey uid1 ekey) fn1)
            (combinedCompileCacheKey uid2 ekey) fn2)
          (combinedCompileCacheKey uid1 ekey) = some fn1 ∧
      assocLookup
          (assocSet (assocSet cache (combinedCompileCacheKey uid1 ekey) fn1)
            (combinedCompileCacheKey uid2 ekey) fn2)
          (combinedCompileCacheKey uid2 ekey) = some fn2 ∧
      (compilePhase1 true true true (combinedCompileCacheKey uid1 ekey) 0
          (assocSet cache (combinedCompileCacheKey uid1 ekey) fn1)).1 =
        CompileStep.hit fn1 := by
  have key_ne : combinedCompileCacheKey uid1 ekey ≠ combinedCompileCacheKey uid2 ekey := by
    intro heq
    apply h
    have hd := congrArg String.data heq
    simp only [combinedCompileCacheKey, String.data_append] at hd
    exact String.ext (List.append_left_injective _ hd)
  refine ⟨key_ne, ?_, ?_, ?_⟩
  · rw [assocLookup_set_other _ _ _ _ key_ne, assocLookup_set_self]
  · exact assocLookup_set_self _ _ _
  · simp [compilePhase1, hk, assocLookup_set_self]

/-- Witness for `compile_cache_key_isolation` at two concrete instance ids. -/
theorem compile_cache_key_isolation_witness :
    combinedCompileCacheKey "1" "ekey" ≠ combinedCompileCacheKey "2" "ekey" ∧
      assocLookup
          (assocSet (assocSet [] (combinedCompileCacheKey "1" "ekey") 10)
            (combinedCompileCacheKey "2" "ekey") 20)
          (combinedCompileCacheKey "1" "ekey") = some 10 ∧
      assocLookup
          (assocSet (assocSet [] (combinedCompileCacheKey "1" "ekey") 10)
            (combinedCompileCacheKey "2" "ekey") 20)
          (combinedCompileCacheKey "2" "ekey") = some 20 ∧
      (compilePhase1 true true true (combinedCompileCacheKey "1" "ekey") 0
          (assocSet [] (combinedCompileCacheKey "1" "ekey") 10)).1 =
        CompileStep.hit 10 :=
  compile_cache_key_isolation "1" "2" "ekey" 10 20 [] (by decide) (by decide)

end Eleventy

namespace Eleventy

/-- Outcome of rendering one map entry (`_generateTemplate`): success,
a premature-template-content condition
(`EleventyErrorUtil.isPrematureTemplateContentError`), or any other error. -/
inductive RenderOutcome where
  | ok
  | premature
  | err
deriving DecidableEq, Repr

/-- The fields of a template-map entry used by
`TemplateWriter.generateTemplates`: its input path, its `outputPath`, and the
output paths of its `_pages`. -/
structure GenMapEntry where
  inputPath : String
  outputPath : String
  pageOutputPaths : List String
deriving DecidableEq, Repr

/-- Settled value of one promise produced by
`TemplateWriter.generateTemplates`: rendered pages, a first-pass
premature-content resolution (the catch handler pushes the entry into
`usedTemplateContentTooEarlyMap` and resolves with nothing), or a hard
`EleventyTemplateError` carrying the named output paths and input path. -/
inductive GenResult where
  | pages
  | collected
  | templateError (secondPass : Bool) (outputPaths : List String) (inputPath : String)
deriving DecidableEq, Repr

/-- First-pass result for one map entry: a premature-content error is caught
(the catch handler pushes the entry into `usedTemplateContentTooEarlyMap`);
any other error is rejected as a hard template error naming every output path
of the entry's pages and its input path. -/
def firstPassResult (o1 : GenMapEntry → RenderOutcome) (e : GenMapEntry) : GenResult :=
  match o1 e with
  | .ok => .pages
  | .premature => .collected
  | .err => .templateError false e.pageOutputPaths e.inputPath

/-- Body of the retry loop of `TemplateWriter.generateTemplates` for one
entry it iterates: any error (premature included) is a hard template error
naming the entry's output and input paths. -/
def secondPassResult (o2 : GenMapEntry → RenderOutcome) (e : GenMapEntry) : GenResult :=
  match o2 e with
  | .ok => .pages
  | .premature => .templateError true [e.outputPath] e.inputPath
  | .err => .templateError true [e.outputPath] e.inputPath

/-- Shallow embedding of `TemplateWriter.generateTemplates` with the
JavaScript execution order made explicit. The function body runs
synchronously: the main loop pushes one promise per map entry and attaches
its `catch` handler, which can only fire later, as a microtask, once the
caller awaits the returned promises; the retry loop then iterates
`usedTemplateContentTooEarlyMap` as it stands at that moment (there is no
suspension point between the two loops). Only afterwards, while the caller's
`Promise.all` settles the first-pass promises, do the `catch` handlers run
and push premature-content entries into the array. Returns the promise list
(settled values) and the final content of `usedTemplateContentTooEarlyMap`. -/
def generateTemplates (entries : List GenMapEntry) (o1 o2 : GenMapEntry → RenderOutcome) :
    List GenResult × List GenMapEntry := Id.run do
  let mut usedTemplateContentTooEarlyMap : List GenMapEntry := []
  let mut promises : List GenResult := []
  -- catch handlers attached per entry, deferred to the microtask queue
  let mut deferredCatchHandlers : List GenMapEntry := []
  for mapEntry in entries do
    promises := promises ++ [firstPassResult o1 mapEntry]
    deferredCatchHandlers := deferredCatchHandlers ++ [mapEntry]
  -- the retry loop runs synchronously: no catch handler has fired yet
  for mapEntry in usedTemplateContentTooEarlyMap do
    promises := promises ++ [secondPassResult o2 mapEntry]
  -- the caller awaits: the deferred catch handlers now run, in order
  for mapEntry in deferredCatchHandlers do
    if o1 mapEntry == RenderOutcome.premature then
      usedTemplateContentTooEarlyMap := usedTemplateContentTooEarlyMap ++ [mapEntry]
  return (promises, usedTemplateContentTooEarlyMap)

/-- C8 (code bug, evaluated at a failing input): a map entry whose first
render hits the premature-template-content condition is pushed into
`usedTemplateContentTooEarlyMap` only after the retry loop has already
iterated that array while it was still empty, so the returned promises are
exactly the first-pass results — the collected entry is never rendered a
second time and no second-pass template error can arise, even though the
collected subset is non-empty when `generateTemplates` has settled. The
sibling entry's non-premature failure is still rejected naming every one of
its page output paths. -/
theorem premature_entries_never_retried :
    generateTemplates
        [⟨"./a.md", "_site/a/index.html", ["_site/a/index.html"]⟩,
         ⟨"./b.md", "_site/b/index.html", ["_site/b/1.html", "_site/b/2.html"]⟩]
        (fun e => if e.inputPath = "./a.md" then RenderOutcome.premature else RenderOutcome.err)
        (fun _ => RenderOutcome.ok) =
      ([GenResult.collected,
        GenResult.templateError false ["_site/b/1.html", "_site/b/2.html"] "./b.md"],
       [⟨"./a.md", "_site/a/index.html", ["_site/a/index.html"]⟩]) := by
  rfl

end Eleventy

namespace Eleventy

/-- Modelled from the spec: the `TemplateMap` Map Entry (the implementation
of `TemplateMap` is not among the provided sources; only its acceptance test
is). An entry owns a document plus the named collections it writes to (its
tags; every entry also implicitly writes the all-collection) and the
collections it reads: named ones, the implicit keys collection, and the
implicit all-collection. -/
structure MapEntryModel where
  inputPath : String
  writesNamed : List String
  readsNamed : List String
  readsKeys : Bool
  readsAll : Bool
deriving DecidableEq, Repr

/-- Modelled from the spec: entry `e` must render after entry `f` when `e`
reads a named collection `f` writes to, or when `e` reads the implicit keys-
or all-collection and `f` writes to any named collection (the barrier rule
of spec §4.3 step 2). -/
def entryNeeds (e f : MapEntryModel) : Bool :=
  e.readsNamed.any (fun c => f.writesNamed.contains c) ||
    ((e.readsKeys || e.readsAll) && !f.writesNamed.isEmpty)

/-- Modelled from the spec: topological order of the indexed entries
(spec §4.3 steps 2-4). At each step the first entry, in insertion order,
whose remaining prerequisites are all emitted is emitted next (insertion-
order tie-break); when no entry is ready (a dependency cycle), the first
remaining entry is emitted, falling back to insertion order for the cyclic
subset. Fuel bounds the recursion by the number of entries. -/
def kahnOrder : Nat → List (Nat × MapEntryModel) → List (Nat × MapEntryModel)
  | 0, remaining => remaining
  | fuel + 1, remaining =>
    match remaining.find? (fun ie =>
        remaining.all (fun jf => jf.1 == ie.1 || !(entryNeeds ie.2 jf.2))) with
    | some ie => ie :: kahnOrder fuel (remaining.filter (fun jf => !(jf.1 == ie.1)))
    | none =>
      match remaining with
      | [] => []
      | x :: xs => x :: kahnOrder fuel xs

/-- Keep the first occurrence of every element, preserving order. -/
def dedupFirst (l : List String) : List String :=
  l.foldl (fun acc x => if acc.contains x then acc else acc ++ [x]) []

/-- Modelled from the spec: the collections read during the build, in first-
read order, then the implicit keys collection, then the implicit
all-collection; `getTemplateOrder` emits a completion marker for each. -/
def collectionsRead (entries : List MapEntryModel) : List String :=
  dedupFirst ((entries.map (·.readsNamed)).flatten)
    ++ (if entries.any (·.readsKeys) then ["[keys]"] else [])
    ++ (if entries.any (·.readsAll) then ["all"] else [])

/-- Modelled from the spec: the entries (by index) that contribute to a
collection: writers of the named collection; for the keys collection, every
entry writing any named collection; for the all-collection, every entry. -/
def markerWriters (entries : List (Nat × MapEntryModel)) (c : String) : List Nat :=
  if c = "[keys]" then (entries.filter (fun p => !p.2.writesNamed.isEmpty)).map (·.1)
  else if c = "all" then entries.map (·.1)
  else (entries.filter (fun p => p.2.writesNamed.contains c)).map (·.1)

/-- Position in the computed order of the last contributor to a collection,
i.e. the point at which the collection is complete. -/
def lastWriterPos (ord : List (Nat × MapEntryModel)) (writers : List Nat) : Option Nat :=
  (ord.enum.filter (fun kp => writers.contains kp.2.1)).foldl (fun _ kp => some kp.1) none

/-- Modelled from the spec: `TemplateMap.getTemplateOrder()` after `cache()`
(its implementation is not among the provided sources): the topologically
ordered entry input paths, interleaved with `"__collection:<name>"` markers
placed at each collection's completion point, markers at the same point in
collection order. -/
def getTemplateOrder (entries : List MapEntryModel) : List String :=
  let idx := entries.enum
  let ord := kahnOrder idx.length idx
  let ms := collectionsRead entries
  (ord.enum.map (fun kp =>
    kp.2.2.inputPath ::
      (ms.filter (fun c => lastWriterPos ord (markerWriters idx c) == some kp.1)).map
        (fun c => "__collection:" ++ c))).flatten

/-- C3: for `post.md` and `another-post.md` (tagged "post", unrelated to each
other) and `index.md` (reading the "post" collection, the keys collection and
the implicit all-collection) added in that order, the template order is
post.md, another-post.md, the "post" marker, the keys marker, index.md, the
all marker; reversing the add order of the two posts swaps their positions
while index.md stays after both and after the post/keys markers. -/
theorem template_order_scenario :
    getTemplateOrder
        [⟨"./test/_issues/975/post.md", ["post"], [], false, false⟩,
         ⟨"./test/_issues/975/another-post.md", ["post"], [], false, false⟩,
         ⟨"./test/_issues/975/index.md", [], ["post"], true, true⟩] =
      ["./test/_issues/975/post.md", "./test/_issues/975/another-post.md",
       "__collection:post", "__collection:[keys]", "./test/_issues/975/index.md",
       "__collection:all"] ∧
      getTemplateOrder
          [⟨"./test/_issues/975/index.md", [], ["post"], true, true⟩,
           ⟨"./test/_issues/975/another-post.md", ["post"], [], false, false⟩,
           ⟨"./test/_issues/975/post.md", ["post"], [], false, false⟩] =
        ["./test/_issues/975/another-post.md", "./test/_issues/975/post.md",
         "__collection:post", "__collection:[keys]", "./test/_issues/975/index.md",
         "__collection:all"] := by
  constructor <;> rfl

end Eleventy
